import Mathlib

/-
Verification of the crd-payments-job repository.

Shallow embedding of the two core components:
  * the delivery pipeline (src/worker/main.py): per-message processing,
    acknowledgment discipline, the processed-message counter and the
    MAX_MESSAGES cap, and the environment-variable configuration loader;
  * the reconciler (src/operator/main.py): the deterministic workload
    naming function, the phase derivations of the timer tick and of the
    create path, and the status-patch logic of the periodic timer.

External effects (RabbitMQ, PostgreSQL, the Kubernetes API, the wall
clock) are modelled as explicit inputs: the outcome of parsing a message
body, the outcome of the database insert, the workload status counters
observed by a tick, and the current timestamp are all parameters, and the
functions return the actions the code performs on those inputs.
-/

/-! ## Delivery pipeline (src/worker/main.py) -/

/-- Observable actions of PaymentWorker.process_message, in program order:
the INSERT statement execution, the transaction commit, basic_ack,
basic_nack with or without requeue, stop_consuming, and the attempt to
re-establish the PostgreSQL connection after a database error. -/
inductive WAction where
  | insertExec : WAction
  | commit : WAction
  | ack : Nat → WAction
  | nackRequeue : Nat → WAction
  | nackNoRequeue : Nat → WAction
  | stopConsuming : WAction
  | reconnectAttempt : Bool → WAction
deriving DecidableEq

/-- Outcome of evaluating json.loads(body.decode(utf8)) on the message
body. jsonMalformed: the body decodes as UTF-8 but json.loads raises
json.JSONDecodeError (caught by the inner except). notUtf8: body.decode
raises UnicodeDecodeError, which is not a subclass of JSONDecodeError and
therefore reaches the generic outer except clause. -/
inductive ParseOutcome where
  | ok : ParseOutcome
  | jsonMalformed : ParseOutcome
  | notUtf8 : ParseOutcome
deriving DecidableEq

/-- Outcome of insert_payment: the transaction commits and returns the new
row id, or a psycopg2.Error is raised before the commit takes effect, or
some other exception is raised before the commit takes effect. -/
inductive DbOutcome where
  | commits : Nat → DbOutcome
  | dbError : DbOutcome
  | otherError : DbOutcome
deriving DecidableEq

/-- One delivered message together with the environment outcomes its
processing would encounter: the parse outcome of its body, the database
outcome if the insert is reached, whether a reconnection attempt would
succeed, and its delivery tag. -/
structure WMessage where
  parse : ParseOutcome
  db : DbOutcome
  reconnectOk : Bool
  tag : Nat
deriving DecidableEq

/-- Truthiness test of the Python guard MAX_MESSAGES and processed count
at least MAX_MESSAGES: a cap of None is falsy, and so is a cap of 0. -/
def capReached (cap : Option Nat) (processed : Nat) : Bool :=
  match cap with
  | some m => (!(m == 0)) && (m ≤ processed)
  | none => false

/-- PaymentWorker.process_message (src/worker/main.py lines 177-233),
as a function of the configured cap, the messages_processed counter and
the message. Returns the emitted actions in program order, the new
counter value, and whether stop_consuming was called. On a JSON parse
error the message is nacked without requeue and the handler returns; on
a UnicodeDecodeError the generic except clause nacks with requeue; on a
committed insert the message is acked, the counter is incremented and
the cap is checked; on a psycopg2.Error the message is nacked with
requeue and a reconnection is attempted; on any other error the message
is nacked with requeue. -/
def process_message (cap : Option Nat) (processed : Nat) (m : WMessage) :
    List WAction × Nat × Bool :=
  match m.parse with
  | ParseOutcome.jsonMalformed => ([WAction.nackNoRequeue m.tag], processed, false)
  | ParseOutcome.notUtf8 => ([WAction.nackRequeue m.tag], processed, false)
  | ParseOutcome.ok =>
    match m.db with
    | DbOutcome.commits _ =>
      let processed2 := processed + 1
      if capReached cap processed2 then
        ([WAction.insertExec, WAction.commit, WAction.ack m.tag,
          WAction.stopConsuming], processed2, true)
      else
        ([WAction.insertExec, WAction.commit, WAction.ack m.tag], processed2, false)
    | DbOutcome.dbError =>
      ([WAction.insertExec, WAction.nackRequeue m.tag,
        WAction.reconnectAttempt m.reconnectOk], processed, false)
    | DbOutcome.otherError =>
      ([WAction.insertExec, WAction.nackRequeue m.tag], processed, false)

/-- The consumption loop of PaymentWorker.run: messages are delivered one
at a time (prefetch 1) and processed sequentially; once stop_consuming
has been called no further message is delivered. Returns the concatenated
action trace and the final counter. -/
def run_consume (cap : Option Nat) : Nat → List WMessage → List WAction × Nat
  | processed, [] => ([], processed)
  | processed, m :: rest =>
    match process_message cap processed m with
    | (acts, p2, stop) =>
      if stop then (acts, p2)
      else
        match run_consume cap p2 rest with
        | (acts2, p3) => (acts ++ acts2, p3)

def isAck : WAction → Bool
  | WAction.ack _ => true
  | _ => false

/-- Number of basic_ack actions in a trace. -/
def countAcks (l : List WAction) : Nat := l.countP isAck

/-- Scans a trace and checks that every ack is preceded by a commit; the
boolean argument records whether a commit has been seen so far. -/
def acks_after_commit : Bool → List WAction → Bool
  | _, [] => true
  | seen, WAction.ack _ :: rest => seen && acks_after_commit seen rest
  | _, WAction.commit :: rest => acks_after_commit true rest
  | seen, _ :: rest => acks_after_commit seen rest

/-- A message whose body parses and whose insert commits: the only case
in which process_message acknowledges and increments the counter. -/
def isSuccess (m : WMessage) : Bool :=
  match m.parse, m.db with
  | ParseOutcome.ok, DbOutcome.commits _ => true
  | _, _ => false

/-- C1: for every message, on every execution path of process_message,
an acknowledgment is emitted only after the database transaction has
committed: no trace contains an ack that is not preceded by a commit. -/
theorem c1_ack_only_after_commit (cap : Option Nat) (processed : Nat) (m : WMessage) :
    acks_after_commit false (process_message cap processed m).1 = true := by
  obtain ⟨mp, md, r, t⟩ := m
  cases mp <;> cases md <;>
    simp only [process_message, acks_after_commit] <;>
    (try split) <;> simp [acks_after_commit]

/-- Equation for process_message on a successful message: the insert
commits, the message is acked, the counter is incremented and the cap is
checked against the incremented counter. -/
lemma process_message_success (cap : Option Nat) (p : Nat) (m : WMessage)
    (h : isSuccess m = true) :
    process_message cap p m =
      ((if capReached cap (p + 1) then
          [WAction.insertExec, WAction.commit, WAction.ack m.tag,
           WAction.stopConsuming]
        else [WAction.insertExec, WAction.commit, WAction.ack m.tag]),
       p + 1, capReached cap (p + 1)) := by
  obtain ⟨mp, md, r, t⟩ := m
  cases mp <;> cases md <;> simp_all [isSuccess, process_message] <;>
    (cases hc : capReached cap (p + 1) <;> simp [hc])

/-- Run of the consumption loop with a nonzero cap n over successful
messages: starting below the cap with enough queued messages, the run
acknowledges exactly the messages needed to reach the cap and then calls
stop_consuming. -/
lemma run_consume_cap (n : Nat) (hn : 0 < n) :
    ∀ (msgs : List WMessage) (p : Nat), p < n → n ≤ p + msgs.length →
      msgs.all isSuccess = true →
      countAcks (run_consume (some n) p msgs).1 = n - p ∧
      WAction.stopConsuming ∈ (run_consume (some n) p msgs).1 := by
  intro msgs
  induction msgs with
  | nil =>
    intro p hp hlen _
    simp at hlen
    omega
  | cons m rest ih =>
    intro p hp hlen hall
    simp only [List.all_cons, Bool.and_eq_true] at hall
    obtain ⟨hm, hrest⟩ := hall
    by_cases hc : n ≤ p + 1
    · have hnp : n = p + 1 := by omega
      have hstop : capReached (some n) (p + 1) = true := by
        simp [capReached]
        omega
      simp [run_consume, process_message_success _ _ _ hm, hstop,
        countAcks, List.countP_cons, List.countP_nil, isAck]
      omega
    · have hstop : capReached (some n) (p + 1) = false := by
        simp [capReached]
        omega
      obtain ⟨ih1, ih2⟩ := ih (p + 1) (by omega) (by simp at hlen ⊢; omega) hrest
      simp [run_consume, process_message_success _ _ _ hm, hstop,
        countAcks, List.countP_append, List.countP_cons, List.countP_nil, isAck] at ih1 ih2 ⊢
      constructor
      · omega
      · exact ih2

/-- Run of the consumption loop with no cap over successful messages:
every message is acknowledged and stop_consuming is never called. -/
lemma run_consume_nocap :
    ∀ (msgs : List WMessage) (p : Nat), msgs.all isSuccess = true →
      countAcks (run_consume none p msgs).1 = msgs.length ∧
      WAction.stopConsuming ∉ (run_consume none p msgs).1 := by
  intro msgs
  induction msgs with
  | nil => intro p _; simp [run_consume, countAcks]
  | cons m rest ih =>
    intro p hall
    simp only [List.all_cons, Bool.and_eq_true] at hall
    obtain ⟨hm, hrest⟩ := hall
    have hnc : capReached none (p + 1) = false := rfl
    obtain ⟨ih1, ih2⟩ := ih (p + 1) hrest
    simp [run_consume, process_message_success _ _ _ hm, hnc,
      countAcks, List.countP_append, List.countP_cons, List.countP_nil, isAck] at ih1 ih2 ⊢
    exact ⟨ih1, ih2⟩

/-- C6 counterexample: a message whose body is not valid UTF-8 fails to
parse, yet the code negative-acknowledges it WITH requeue (the
UnicodeDecodeError reaches the generic except clause, not the
JSONDecodeError handler), contradicting the claim that every message
whose payload fails to parse is rejected without requeue. Nothing is
persisted for it. -/
theorem c6_counterexample :
    process_message none 0 ⟨ParseOutcome.notUtf8, DbOutcome.commits 0, true, 5⟩ =
      ([WAction.nackRequeue 5], 0, false) ∧
    WAction.nackNoRequeue 5 ∉
      (process_message none 0 ⟨ParseOutcome.notUtf8, DbOutcome.commits 0, true, 5⟩).1 ∧
    WAction.insertExec ∉
      (process_message none 0 ⟨ParseOutcome.notUtf8, DbOutcome.commits 0, true, 5⟩).1 := by
  decide

/-- C6 amended: a message whose body decodes as UTF-8 but fails JSON
parsing is negative-acknowledged without requeue, persists nothing and
never reaches the database insert; a message whose body is not valid
UTF-8 also persists nothing and never reaches the insert, but is
negative-acknowledged WITH requeue by the generic error handler. -/
theorem c6_amended (cap : Option Nat) (processed : Nat) (db : DbOutcome)
    (r : Bool) (tag : Nat) :
    process_message cap processed ⟨ParseOutcome.jsonMalformed, db, r, tag⟩ =
      ([WAction.nackNoRequeue tag], processed, false) ∧
    process_message cap processed ⟨ParseOutcome.notUtf8, db, r, tag⟩ =
      ([WAction.nackRequeue tag], processed, false) :=
  ⟨rfl, rfl⟩

/-- C10: the messages_processed counter is incremented exactly by the
number of acknowledgments the handler emits, and it is incremented only
for a message that parses and whose insert commits; malformed messages
and messages nacked after a storage or unexpected error leave the
counter, and hence the distance to the cap, unchanged. -/
theorem c10_counter_increments_only_on_ack (cap : Option Nat) (processed : Nat)
    (m : WMessage) :
    (process_message cap processed m).2.1 =
      processed + countAcks (process_message cap processed m).1 ∧
    (process_message cap processed m).2.1 =
      (if isSuccess m then processed + 1 else processed) := by
  obtain ⟨mp, md, r, t⟩ := m
  cases mp <;> cases md <;>
    simp [process_message, isSuccess, countAcks, List.countP_cons,
      List.countP_nil, isAck] <;>
    (try split) <;>
    simp [List.countP_cons, List.countP_nil, isAck]

/-- C7 counterexample: with a configured cap of 0 and one successfully
processed queued message, the pipeline acknowledges 1 message (not 0)
and never calls stop_consuming: a cap of 0 is falsy in the Python guard
and behaves as no cap at all, contradicting the claim for every
configured cap N. -/
theorem c7_counterexample :
    countAcks (run_consume (some 0) 0
      [⟨ParseOutcome.ok, DbOutcome.commits 1, true, 1⟩]).1 = 1 ∧
    WAction.stopConsuming ∉ (run_consume (some 0) 0
      [⟨ParseOutcome.ok, DbOutcome.commits 1, true, 1⟩]).1 := by
  decide

/-- C7 amended: for every configured POSITIVE cap N, a run over
successfully processed messages with at least N queued acknowledges
exactly N messages and then stops consuming, leaving the remaining
queued messages undelivered; with no cap configured the pipeline
acknowledges every message and never stops. A configured cap of 0 is
treated as no cap. -/
theorem c7_cap_behavior :
    (∀ (n : Nat) (msgs : List WMessage), 0 < n → n ≤ msgs.length →
        msgs.all isSuccess = true →
        countAcks (run_consume (some n) 0 msgs).1 = n ∧
        WAction.stopConsuming ∈ (run_consume (some n) 0 msgs).1) ∧
    (∀ msgs : List WMessage, msgs.all isSuccess = true →
        countAcks (run_consume none 0 msgs).1 = msgs.length ∧
        WAction.stopConsuming ∉ (run_consume none 0 msgs).1) := by
  constructor
  · intro n msgs hn hlen hall
    have h := run_consume_cap n hn msgs 0 hn (by omega) hall
    simpa using h
  · intro msgs hall
    exact run_consume_nocap msgs 0 hall

/-- Witness for c7_cap_behavior: cap 1, two successful queued messages:
exactly one is acknowledged, the loop stops, the second stays queued. -/
theorem c7_cap_behavior_witness :
    countAcks (run_consume (some 1) 0
      [⟨ParseOutcome.ok, DbOutcome.commits 1, true, 1⟩,
       ⟨ParseOutcome.ok, DbOutcome.commits 2, true, 2⟩]).1 = 1 ∧
    WAction.stopConsuming ∈ (run_consume (some 1) 0
      [⟨ParseOutcome.ok, DbOutcome.commits 1, true, 1⟩,
       ⟨ParseOutcome.ok, DbOutcome.commits 2, true, 2⟩]).1 :=
  c7_cap_behavior.1 1 _ (by decide) (by decide) (by decide)

/-! ## Worker configuration (src/worker/main.py lines 26-48) -/

/-- Failure modes of loading the configuration: the sys.exit(1) issued by
get_env for a required variable with no value, or the ValueError raised
by the int conversion of a port value. -/
inductive ConfigError where
  | fatalExit : ConfigError
  | intParseError : ConfigError
deriving DecidableEq

/-- The get_env helper (src/worker/main.py lines 26-32): read the
environment with an optional default; if the variable is required and
neither the environment nor the default supplies a value, exit fatally,
otherwise return the (possibly absent) value. -/
def get_env (env : String → Option String) (name : String)
    (default : Option String) (required : Bool) : Except ConfigError (Option String) :=
  let value : Option String :=
    match env name with
    | some v => some v
    | none => default
  if required && value.isNone then Except.error ConfigError.fatalExit
  else Except.ok value

/-- Wrapper for the call sites of get_env in this file: every call passes
required = True, so on success the value is present; the unreachable
absent case is mapped to the same fatal exit. -/
def get_env_str (env : String → Option String) (name : String)
    (default : Option String) : Except ConfigError String :=
  match get_env env name default true with
  | Except.error e => Except.error e
  | Except.ok (some v) => Except.ok v
  | Except.ok none => Except.error ConfigError.fatalExit

def pyIntLoop : List Char → Nat → Option Nat
  | [], acc => some acc
  | c :: rest, acc =>
    if c.isDigit then pyIntLoop rest (acc * 10 + (c.toNat - 48)) else none

/-- The int(...) conversion applied to the port values: a nonempty digit
string parses to its decimal value, anything else raises. Pythons int
also accepts signs and surrounding whitespace; only the digit case, which
covers every default used in this file, is modelled. -/
def pyInt (s : String) : Except ConfigError Nat :=
  match s.data with
  | [] => Except.error ConfigError.intParseError
  | cs =>
    match pyIntLoop cs 0 with
    | some n => Except.ok n
    | none => Except.error ConfigError.intParseError

/-- The MAX_MESSAGES handling (src/worker/main.py lines 46-48):
os.environ.get with no default, then int conversion only when the raw
string is truthy; an absent or empty value leaves the cap unset. -/
def load_max_messages (env : String → Option String) : Except ConfigError (Option Nat) :=
  match env "MAX_MESSAGES" with
  | none => Except.ok none
  | some s =>
    if s.isEmpty then Except.ok none
    else
      match pyInt s with
      | Except.ok n => Except.ok (some n)
      | Except.error e => Except.error e

/-- Configuration of the delivery process as read from the environment. -/
structure WorkerConfig where
  rabbitmq_host : String
  rabbitmq_port : Nat
  rabbitmq_user : String
  rabbitmq_pass : String
  postgres_host : String
  postgres_port : Nat
  postgres_db : String
  postgres_user : String
  postgres_pass : String
  queue_name : String
  max_messages : Option Nat
deriving DecidableEq

/-- The module-level configuration block (src/worker/main.py lines
36-48), with the exact defaults the source passes to get_env. -/
def load_config (env : String → Option String) : Except ConfigError WorkerConfig := do
  let rh ← get_env_str env "RABBITMQ_HOST" (some "localhost")
  let rp ← pyInt (← get_env_str env "RABBITMQ_PORT" (some "5672"))
  let ru ← get_env_str env "RABBITMQ_USER" (some "guest")
  let rpw ← get_env_str env "RABBITMQ_PASS" (some "guest")
  let ph ← get_env_str env "POSTGRES_HOST" (some "localhost")
  let pp ← pyInt (← get_env_str env "POSTGRES_PORT" (some "5432"))
  let pdb ← get_env_str env "POSTGRES_DB" (some "payments_db")
  let pu ← get_env_str env "POSTGRES_USER" (some "postgres")
  let ppw ← get_env_str env "POSTGRES_PASS" (some "postgres")
  let qn ← get_env_str env "QUEUE_NAME" (some "payments")
  let mm ← load_max_messages env
  Except.ok ⟨rh, rp, ru, rpw, ph, pp, pdb, pu, ppw, qn, mm⟩

/-- The configuration obtained when every environment variable is absent:
the built-in defaults of the source. -/
def defaultWorkerConfig : WorkerConfig :=
  ⟨"localhost", 5672, "guest", "guest", "localhost", 5432, "payments_db",
   "postgres", "postgres", "payments", none⟩

/-- C9 counterexample: with EVERY configuration environment variable
absent, loading the configuration succeeds with the built-in defaults
instead of exiting fatally, contradicting the claim that absence of any
required variable causes an immediate fatal exit. -/
theorem c9_counterexample :
    load_config (fun _ => none) = Except.ok defaultWorkerConfig ∧
    load_config (fun _ => none) ≠ Except.error ConfigError.fatalExit := by
  refine ⟨rfl, ?_⟩
  intro h
  rw [show load_config (fun _ => none) = Except.ok defaultWorkerConfig from rfl] at h
  exact Except.noConfusion h

/-- C9 amended: every configuration value consumed by the delivery
process is read through get_env with a built-in default, so an absent
environment variable falls back to its default rather than causing an
exit; get_env exits fatally only when the variable is required and
neither the environment nor a default supplies a value, which is the
case for none of these variables. In particular an environment defining
no variable at all yields the default configuration. -/
theorem c9_absence_falls_back_to_defaults :
    (∀ (env : String → Option String) (name d : String),
        get_env env name (some d) true ≠ Except.error ConfigError.fatalExit) ∧
    (∀ env : String → Option String, (∀ n, env n = none) →
        load_config env = Except.ok defaultWorkerConfig) := by
  constructor
  · intro env name d
    cases henv : env name <;> simp [get_env, henv]
  · intro env h
    have hrw : env = fun _ => none := funext h
    rw [hrw]
    rfl

/-- Witness for c9_absence_falls_back_to_defaults: the concrete empty
environment yields the default configuration without a fatal exit. -/
theorem c9_absence_witness :
    load_config (fun _ : String => none) = Except.ok defaultWorkerConfig :=
  c9_absence_falls_back_to_defaults.2 (fun _ => none) (fun _ => rfl)

/-! ## Operator: phase derivation (src/operator/main.py) -/

/-- Lifecycle phase reported on a PaymentJob resource. -/
inductive Phase where
  | Pending : Phase
  | Running : Phase
  | Succeeded : Phase
  | Failed : Phase
deriving DecidableEq

/-- One entry of the conditions list of a Kubernetes Job status: its
type, its status string, and its optional message. -/
structure JobCondition where
  type : String
  status : String
  message : Option String
deriving DecidableEq

/-- The live status counters of a Kubernetes Job as returned by the
cluster API: each counter may be absent (None), and the conditions list
may be absent. -/
structure K8sJobStatus where
  succeeded : Option Nat
  failed : Option Nat
  active : Option Nat
  conditions : Option (List JobCondition)
deriving DecidableEq

/-- Truthiness of the Python test counter and counter greater than 0:
None is falsy, and so is 0. -/
def optPos : Option Nat → Bool
  | some n => 0 < n
  | none => false

/-- Str formatting of an optional counter as a Python f-string renders
it: a number prints in decimal, None prints as the word None. -/
def pyStrOptNat : Option Nat → String
  | some n => toString n
  | none => "None"

def cond_matches (c : JobCondition) : Bool :=
  c.type == "Failed" && c.status == "True"

/-- First condition of type Failed with status True, if any, yielding
its message with the Python or-fallback: an absent or empty message
becomes the fixed string. -/
def first_failed_message : List JobCondition → Option String
  | [] => none
  | c :: rest =>
    if cond_matches c then
      some (match c.message with
        | some m => if m.isEmpty then "Job failed" else m
        | none => "Job failed")
    else first_failed_message rest

/-- Failure message extraction of monitor_job_status (lines 341-349):
search the conditions list, if truthy, for a Failed condition; fall back
to the generic failed-after-N-attempts message. -/
def failure_message (js : K8sJobStatus) : String :=
  let fromCond : Option String :=
    match js.conditions with
    | some conds => if conds.isEmpty then none else first_failed_message conds
    | none => none
  match fromCond with
  | some m => m
  | none => "Job failed after " ++ pyStrOptNat js.failed ++ " attempt(s)"

/-- Phase and message derivation of the timer tick (monitor_job_status,
lines 337-355): succeeded first, then failed, then active, else
Pending. -/
def derive_phase_message (js : K8sJobStatus) : Phase × String :=
  if optPos js.succeeded then (Phase.Succeeded, "Job completed successfully")
  else if optPos js.failed then (Phase.Failed, failure_message js)
  else if optPos js.active then
    (Phase.Running, "Job is running (" ++ pyStrOptNat js.active ++ " active pod(s))")
  else (Phase.Pending, "Waiting for pod to start")

/-- Phase derivation of the create path for an already-existing workload
(create_paymentjob, lines 244-251): starts from Pending, then checks
active FIRST, then succeeded, then failed. -/
def create_existing_phase (js : K8sJobStatus) : Phase :=
  if optPos js.active then Phase.Running
  else if optPos js.succeeded then Phase.Succeeded
  else if optPos js.failed then Phase.Failed
  else Phase.Pending

/-- Modelled from the spec: the fixed priority the claim states for both
paths, first match winning: succeeded, then failed, then active, else
Pending. -/
def claimed_priority_phase (js : K8sJobStatus) : Phase :=
  if optPos js.succeeded then Phase.Succeeded
  else if optPos js.failed then Phase.Failed
  else if optPos js.active then Phase.Running
  else Phase.Pending

/-- C3 counterexample: a workload that simultaneously reports one
succeeded completion and one active pod is derived as Succeeded by the
timer tick but as Running by the create path, so the same priority does
not govern both paths. -/
theorem c3_counterexample :
    (derive_phase_message ⟨some 1, none, some 1, none⟩).1 = Phase.Succeeded ∧
    create_existing_phase ⟨some 1, none, some 1, none⟩ = Phase.Running ∧
    Phase.Running ≠ Phase.Succeeded := by
  decide

/-- C3 amended: the timer tick derivation follows exactly the claimed
fixed priority (succeeded, then failed, then active, else Pending), but
the create path derivation for an already-existing workload checks the
active counter first and therefore disagrees with that priority whenever
a terminal counter and the active counter are positive together. -/
theorem c3_timer_priority (js : K8sJobStatus) :
    (derive_phase_message js).1 = claimed_priority_phase js := by
  cases hs : optPos js.succeeded <;> cases hf : optPos js.failed <;>
    cases ha : optPos js.active <;>
    simp [derive_phase_message, claimed_priority_phase, hs, hf, ha]

/-! ## Operator: workload naming (src/operator/main.py lines 32-43) -/

/-- Python string slicing s[:n]: the first n characters. -/
def strTake (s : String) (n : Nat) : String := String.mk (s.data.take n)

/-- The get_job_name function: digest of namespace-slash-name, first 8
hex characters, appended to the human-readable base truncated to 54
characters so that the total stays within the 63-character limit. The
cryptographic digest is the external hashlib.sha256 hexdigest, modelled
as an explicit function parameter; its documented contract (a 64
character lowercase hex string for every input) is a hypothesis of the
theorems about this function. -/
def get_job_name (digest : String → String)
    (paymentjob_name namespace_ : String) : String :=
  let hash_input := namespace_ ++ "/" ++ paymentjob_name
  let short_hash := strTake (digest hash_input) 8
  let base_name := "paymentjob-" ++ paymentjob_name
  let base_name2 := if base_name.length > 54 then strTake base_name 54 else base_name
  base_name2 ++ "-" ++ short_hash

/-- Lowercase hexadecimal characters, the alphabet of hexdigest. -/
def isHexChar (c : Char) : Bool :=
  c.isDigit || ('a' ≤ c && c ≤ 'f')

lemma strTake_length (s : String) (n : Nat) :
    (strTake s n).length = min n s.length := by
  show (s.data.take n).length = min n s.data.length
  simp [List.length_take]

lemma length_append_str (a b : String) :
    (a ++ b).length = a.length + b.length := by
  cases a
  cases b
  show (List.append _ _).length = _
  simp [List.length_append]

/-- C8: for every digest function satisfying the hexdigest contract and
every (namespace, resourceName) pair, the derived workload name is
deterministic, has the form bounded-prefix, dash, 8-hex-character digest
of namespace-slash-resourceName, and never exceeds 63 characters. -/
theorem c8_job_name_shape (digest : String → String)
    (hlen : ∀ s, (digest s).length = 64)
    (hhex : ∀ s, ∀ c ∈ (digest s).data, isHexChar c = true)
    (ns name : String) :
    get_job_name digest name ns = get_job_name digest name ns ∧
    (∃ pre : String,
        get_job_name digest name ns =
          pre ++ "-" ++ strTake (digest (ns ++ "/" ++ name)) 8 ∧
        pre.length ≤ 54) ∧
    (strTake (digest (ns ++ "/" ++ name)) 8).length = 8 ∧
    (∀ c ∈ (strTake (digest (ns ++ "/" ++ name)) 8).data, isHexChar c = true) ∧
    (get_job_name digest name ns).length ≤ 63 := by
  have hdig : (strTake (digest (ns ++ "/" ++ name)) 8).length = 8 := by
    rw [strTake_length, hlen]
    decide
  have hbase : ∀ s : String,
      (if ("paymentjob-" ++ s).length > 54
       then strTake ("paymentjob-" ++ s) 54
       else "paymentjob-" ++ s).length ≤ 54 := by
    intro s
    by_cases h : ("paymentjob-" ++ s).length > 54
    · simp only [h, if_pos]
      rw [strTake_length]
      omega
    · simp only [h, if_neg, not_false_iff]
      omega
  refine ⟨rfl, ⟨?_, ?_, ?_⟩, hdig, ?_, ?_⟩
  · exact if ("paymentjob-" ++ name).length > 54
      then strTake ("paymentjob-" ++ name) 54
      else "paymentjob-" ++ name
  · rfl
  · exact hbase name
  · intro c hc
    exact hhex (ns ++ "/" ++ name) c (List.take_subset 8 _ hc)
  · show (get_job_name digest name ns).length ≤ 63
    rw [show get_job_name digest name ns =
      (if ("paymentjob-" ++ name).length > 54
       then strTake ("paymentjob-" ++ name) 54
       else "paymentjob-" ++ name) ++ "-" ++
      strTake (digest (ns ++ "/" ++ name)) 8 from rfl]
    rw [length_append_str, length_append_str, hdig]
    have hb := hbase name
    have h1 : ("-" : String).length = 1 := rfl
    rw [h1]
    omega

/-- Witness for c8_job_name_shape: a concrete digest function satisfying
the hexdigest contract, applied at the concrete resource checkout in
namespace billing: the derived name stays within 63 characters. -/
theorem c8_job_name_shape_witness :
    (get_job_name (fun _ => String.mk (List.replicate 64 'a'))
      "checkout" "billing").length ≤ 63 :=
  (c8_job_name_shape (fun _ => String.mk (List.replicate 64 'a'))
    (fun _ => rfl)
    (fun _ c hc => by
      have hc2 : c ∈ List.replicate 64 'a' := hc
      rw [(List.mem_replicate.mp hc2).2]
      decide)
    "billing" "checkout").2.2.2.2

/-! ## Operator: timer tick (src/operator/main.py lines 306-387) -/

/-- The status recorded on the PaymentJob resource, as the timer handler
reads it: a dict whose keys may each be absent. -/
structure RecordedStatus where
  phase : Option Phase
  jobName : Option String
  startTime : Option String
  completionTime : Option String
  lastUpdateTime : Option String
  message : Option String
deriving DecidableEq

/-- The Python read status.get(phase, Pending) if status else Pending. -/
def current_phase_of (status : Option RecordedStatus) : Phase :=
  match status with
  | some st => st.phase.getD Phase.Pending
  | none => Phase.Pending

/-- Truthiness of status and status.get(startTime): the status object
exists and carries a nonempty startTime. -/
def startTime_truthy : Option RecordedStatus → Bool
  | some st =>
    match st.startTime with
    | some s => !s.isEmpty
    | none => false
  | none => false

/-- Events posted by the timer handler: kopf.info and kopf.warn. -/
inductive OpEvent where
  | info : String → String → OpEvent
  | warn : String → String → OpEvent
deriving DecidableEq

/-- The set of status keys the timer handler writes when the phase
changed: phase, lastUpdateTime and jobName always; message when truthy;
startTime on first entry to Running; completionTime on entry to a
terminal phase. -/
structure StatusPatch where
  phase : Phase
  lastUpdateTime : String
  jobName : String
  message : Option String
  startTime : Option String
  completionTime : Option String
deriving DecidableEq

/-- The body of monitor_job_status after the workload was read
successfully (lines 331-387): derive the new phase and message from the
counters; if the phase is unchanged write nothing and post no event;
otherwise build the status patch, stamping startTime on a transition to
Running when no truthy startTime is recorded, else stamping
completionTime on a transition to Succeeded or Failed, and post an info
event on Succeeded or a warn event on Failed. -/
def monitor_tick_found (status : Option RecordedStatus) (js : K8sJobStatus)
    (now jobName : String) : Option StatusPatch × List OpEvent :=
  let current := current_phase_of status
  let newPhase := (derive_phase_message js).1
  let msg := (derive_phase_message js).2
  if newPhase = current then (none, [])
  else
    let stamps : Option String × Option String :=
      if newPhase = Phase.Running && !(startTime_truthy status) then (some now, none)
      else if newPhase = Phase.Succeeded || newPhase = Phase.Failed then (none, some now)
      else (none, none)
    let events : List OpEvent :=
      if newPhase = Phase.Succeeded then
        [OpEvent.info "JobSucceeded" ("Job " ++ jobName ++ " completed successfully")]
      else if newPhase = Phase.Failed then
        [OpEvent.warn "JobFailed"
          (if msg.isEmpty then "Job " ++ jobName ++ " failed" else msg)]
      else []
    (some { phase := newPhase, lastUpdateTime := now, jobName := jobName,
            message := if msg.isEmpty then none else some msg,
            startTime := stamps.1, completionTime := stamps.2 }, events)

/-- Result of reading the workload from the cluster API: found, absent
(the 404 the handler treats as not-yet-created), or any other API error
(re-raised). -/
inductive LookupResult where
  | found : K8sJobStatus → LookupResult
  | notFound : LookupResult
  | apiError : Nat → LookupResult
deriving DecidableEq

/-- The job name resolution of the timer handler (lines 310-312): take
status.get(jobName) when truthy, else recompute deterministically. -/
def resolve_job_name (digest : String → String) (status : Option RecordedStatus)
    (name namespace_ : String) : String :=
  let fromStatus :=
    match status with
    | some st => st.jobName.getD ""
    | none => ""
  if fromStatus.isEmpty then get_job_name digest name namespace_ else fromStatus

/-- The full timer handler monitor_job_status: resolve the workload
name, read the workload, return silently on 404, re-raise any other API
error, and otherwise run the phase comparison and patch logic. -/
def monitor_job_status (digest : String → String) (name namespace_ : String)
    (status : Option RecordedStatus) (lookup : LookupResult) (now : String) :
    Except Nat (Option StatusPatch × List OpEvent) :=
  let jobName := resolve_job_name digest status name namespace_
  match lookup with
  | LookupResult.notFound => Except.ok (none, [])
  | LookupResult.apiError c => Except.error c
  | LookupResult.found js => Except.ok (monitor_tick_found status js now jobName)

/-- Effect of a kopf status patch on the recorded status: every key the
patch sets overrides the recorded one, the rest are kept. -/
def apply_patch (st : RecordedStatus) (p : StatusPatch) : RecordedStatus :=
  { phase := some p.phase
    jobName := some p.jobName
    lastUpdateTime := some p.lastUpdateTime
    message :=
      match p.message with
      | some m => some m
      | none => st.message
    startTime :=
      match p.startTime with
      | some s => some s
      | none => st.startTime
    completionTime :=
      match p.completionTime with
      | some c => some c
      | none => st.completionTime }

/-- The empty recorded status a patch is applied to when the resource
had no status object yet. -/
def emptyRecorded : RecordedStatus := ⟨none, none, none, none, none, none⟩

/-- One timer tick observing counters and a timestamp, for a resource
whose resolved workload name is fixed: the recorded status after the
patch, if any, is applied. -/
def tick_step (jobName : String) (st : Option RecordedStatus)
    (obs : K8sJobStatus × String) : Option RecordedStatus :=
  match (monitor_tick_found st obs.1 obs.2 jobName).1 with
  | none => st
  | some p => some (apply_patch (st.getD emptyRecorded) p)

/-- Recorded statuses along a sequence of timer ticks, the initial one
included. -/
def recorded_trace (jobName : String) (st : Option RecordedStatus) :
    List (K8sJobStatus × String) → List (Option RecordedStatus)
  | [] => [st]
  | o :: rest => st :: recorded_trace jobName (tick_step jobName st o) rest

/-- Rank of a phase in the order Pending, then Running, then the two
terminal phases. -/
def phase_rank : Phase → Nat
  | Phase.Pending => 0
  | Phase.Running => 1
  | Phase.Succeeded => 2
  | Phase.Failed => 2

/-- The partial order of the claimed invariant: a phase may stay put or
move strictly up in rank; Succeeded and Failed are incomparable. -/
def phase_le (a b : Phase) : Bool :=
  (a == b) || (phase_rank a < phase_rank b)

/-- Each consecutive pair of the list respects phase_le. -/
def phases_monotone : List Phase → Bool
  | [] => true
  | [_] => true
  | a :: b :: rest => phase_le a b && phases_monotone (b :: rest)

def is_terminal : Phase → Bool
  | Phase.Succeeded => true
  | Phase.Failed => true
  | _ => false

/-- Number of ticks of a run that write the completionTime key. -/
def completion_write_count (jobName : String) (st : Option RecordedStatus)
    (o : K8sJobStatus × String) : Nat :=
  match (monitor_tick_found st o.1 o.2 jobName).1 with
  | some p => if p.completionTime.isSome then 1 else 0
  | none => 0

def completion_writes (jobName : String) :
    Option RecordedStatus → List (K8sJobStatus × String) → Nat
  | _, [] => 0
  | st, o :: rest =>
    completion_write_count jobName st o +
      completion_writes jobName (tick_step jobName st o) rest

/-- The completionTime recorded on a status, if any. -/
def recorded_completion : Option RecordedStatus → Option String
  | some st => st.completionTime
  | none => none

/-- The tick writes no patch exactly when the derived phase equals the
recorded one. -/
lemma monitor_tick_none_iff (st : Option RecordedStatus) (js : K8sJobStatus)
    (now jn : String) :
    (monitor_tick_found st js now jn).1 = none ↔
      (derive_phase_message js).1 = current_phase_of st := by
  by_cases h : (derive_phase_message js).1 = current_phase_of st <;>
    simp [monitor_tick_found, h]

/-- C5: on a timer tick that observes the workload, no status field is
written precisely when the phase derived from the observed counters
equals the previously recorded phase; a status patch is emitted only
when they differ. -/
theorem c5_patch_only_on_change (st : Option RecordedStatus) (js : K8sJobStatus)
    (now jn : String) :
    (monitor_tick_found st js now jn).1 = none ↔
      (derive_phase_message js).1 = current_phase_of st :=
  monitor_tick_none_iff st js now jn

/-- When a tick emits a patch, the patch carries the derived phase. -/
lemma monitor_tick_phase (st : Option RecordedStatus) (js : K8sJobStatus)
    (now jn : String) (p : StatusPatch)
    (hp : (monitor_tick_found st js now jn).1 = some p) :
    p.phase = (derive_phase_message js).1 := by
  have hne : ¬ (derive_phase_message js).1 = current_phase_of st := by
    intro h
    rw [(monitor_tick_none_iff st js now jn).mpr h] at hp
    exact Option.noConfusion hp
  revert hp
  simp only [monitor_tick_found, if_neg hne, Option.some.injEq]
  intro hp
  rw [← hp]

/-- After any tick that observes the workload, the recorded phase equals
the phase derived from the observed counters. -/
lemma tick_step_phase (jn : String) (st : Option RecordedStatus)
    (o : K8sJobStatus × String) :
    current_phase_of (tick_step jn st o) = (derive_phase_message o.1).1 := by
  rw [tick_step]
  cases hmt : (monitor_tick_found st o.1 o.2 jn).1 with
  | none => exact ((monitor_tick_none_iff st o.1 o.2 jn).mp hmt).symm
  | some p =>
    have hph := monitor_tick_phase st o.1 o.2 jn p hmt
    simp [apply_patch, current_phase_of, hph]

/-- The phases along a run of ticks are the initial recorded phase
followed by the derived phase of each observation. -/
lemma recorded_trace_phases (jn : String) :
    ∀ (obss : List (K8sJobStatus × String)) (st : Option RecordedStatus),
      (recorded_trace jn st obss).map current_phase_of =
        current_phase_of st :: obss.map (fun o => (derive_phase_message o.1).1) := by
  intro obss
  induction obss with
  | nil => intro st; simp [recorded_trace]
  | cons o rest ih =>
    intro st
    simp [recorded_trace, ih (tick_step jn st o), tick_step_phase]

/-- C2 counterexample: a resource recorded as Succeeded whose workload
is observed on the next tick with all counters at zero is patched back
to Pending: the recorded phase regresses out of a terminal phase, since
the code derives the phase from the observed counters with no
monotonicity guard. -/
theorem c2_counterexample :
    current_phase_of (some ⟨some Phase.Succeeded, some "j", some "t0", some "t0",
      some "t0", none⟩) = Phase.Succeeded ∧
    current_phase_of (tick_step "j"
      (some ⟨some Phase.Succeeded, some "j", some "t0", some "t0", some "t0", none⟩)
      (⟨none, none, none, none⟩, "t1")) = Phase.Pending ∧
    phase_le Phase.Succeeded Phase.Pending = false := by
  decide

/-- C2 amended: after every tick that observes the workload the recorded
phase equals the phase derived from that observation, so the recorded
phases never regress provided the derived phases of the observed counter
sequence never regress in the order Pending, Running, then terminal; the
code itself enforces no monotonicity when the observed counters
regress. -/
theorem c2_recorded_phases_monotone (jn : String) (st : Option RecordedStatus)
    (obss : List (K8sJobStatus × String))
    (h : phases_monotone (current_phase_of st ::
          obss.map (fun o => (derive_phase_message o.1).1)) = true) :
    phases_monotone ((recorded_trace jn st obss).map current_phase_of) = true := by
  rw [recorded_trace_phases]
  exact h

/-- Witness for c2_recorded_phases_monotone: a run observing one active
pod and then one succeeded completion keeps the recorded phases
monotone. -/
theorem c2_recorded_phases_monotone_witness :
    phases_monotone ((recorded_trace "j" none
      [(⟨none, none, some 1, none⟩, "t1"),
       (⟨some 1, none, none, none⟩, "t2")]).map current_phase_of) = true :=
  c2_recorded_phases_monotone "j" none
    [(⟨none, none, some 1, none⟩, "t1"), (⟨some 1, none, none, none⟩, "t2")]
    (by decide)

/-- From a terminal phase, phase_le only allows staying at that phase. -/
lemma phase_le_terminal (a b : Phase) (ha : is_terminal a = true)
    (hle : phase_le a b = true) : b = a := by
  cases a <;> cases b <;> simp_all [is_terminal, phase_le, phase_rank]

/-- When a tick emits a patch, the patch carries a completionTime
exactly when the derived phase is terminal. -/
lemma monitor_tick_completion (st : Option RecordedStatus) (js : K8sJobStatus)
    (now jn : String) (p : StatusPatch)
    (hp : (monitor_tick_found st js now jn).1 = some p) :
    p.completionTime.isSome = is_terminal (derive_phase_message js).1 := by
  have hne : ¬ (derive_phase_message js).1 = current_phase_of st := by
    intro h
    rw [(monitor_tick_none_iff st js now jn).mpr h] at hp
    exact Option.noConfusion hp
  revert hp
  simp only [monitor_tick_found, if_neg hne, Option.some.injEq]
  intro hp
  rw [← hp]
  cases hph : (derive_phase_message js).1 <;>
    cases hst : startTime_truthy st <;>
    simp [hph, hst, is_terminal]

/-- Once the recorded phase is terminal, a run whose derived phases stay
monotone never writes completionTime again. -/
lemma completion_writes_terminal (jn : String) :
    ∀ (obss : List (K8sJobStatus × String)) (st : Option RecordedStatus),
      is_terminal (current_phase_of st) = true →
      phases_monotone (current_phase_of st ::
        obss.map (fun o => (derive_phase_message o.1).1)) = true →
      completion_writes jn st obss = 0 := by
  intro obss
  induction obss with
  | nil => intro st _ _; rfl
  | cons o rest ih =>
    intro st hterm hmono
    simp only [List.map_cons, phases_monotone, Bool.and_eq_true] at hmono
    obtain ⟨hle, hmono2⟩ := hmono
    have heq : (derive_phase_message o.1).1 = current_phase_of st :=
      phase_le_terminal _ _ hterm hle
    have hnone : (monitor_tick_found st o.1 o.2 jn).1 = none :=
      (monitor_tick_none_iff st o.1 o.2 jn).mpr heq
    have hstep : tick_step jn st o = st := by simp [tick_step, hnone]
    have hrec : completion_writes jn st rest = 0 :=
      ih st hterm (by rw [heq] at hmono2; exact hmono2)
    simp [completion_writes, completion_write_count, hnone, hstep, hrec]

/-- C4 amended: a tick writes completionTime exactly when its transition
enters a terminal phase, so along any run whose observed derived phases
never regress, completionTime is written at most once (on the first
entry into Succeeded or Failed) and never overwritten; when the observed
counters regress and re-enter a terminal phase, the code re-stamps it. -/
theorem c4_completion_written_at_most_once (jn : String) (st : Option RecordedStatus)
    (obss : List (K8sJobStatus × String))
    (h : phases_monotone (current_phase_of st ::
          obss.map (fun o => (derive_phase_message o.1).1)) = true) :
    completion_writes jn st obss ≤ 1 := by
  induction obss generalizing st with
  | nil => simp [completion_writes]
  | cons o rest ih =>
    simp only [List.map_cons, phases_monotone, Bool.and_eq_true] at h
    obtain ⟨hle, hmono2⟩ := h
    by_cases hterm : is_terminal (current_phase_of st) = true
    · have h0 := completion_writes_terminal jn (o :: rest) st hterm (by
        simp only [List.map_cons, phases_monotone, Bool.and_eq_true]
        exact ⟨hle, hmono2⟩)
      omega
    · by_cases heq : (derive_phase_message o.1).1 = current_phase_of st
      · have hnone := (monitor_tick_none_iff st o.1 o.2 jn).mpr heq
        have hstep : tick_step jn st o = st := by simp [tick_step, hnone]
        have hrec := ih st (by rw [heq] at hmono2; exact hmono2)
        simp [completion_writes, completion_write_count, hnone, hstep]
        exact hrec
      · obtain ⟨p, hp⟩ : ∃ p, (monitor_tick_found st o.1 o.2 jn).1 = some p := by
          cases hmt : (monitor_tick_found st o.1 o.2 jn).1 with
          | none => exact absurd ((monitor_tick_none_iff st o.1 o.2 jn).mp hmt) heq
          | some p => exact ⟨p, rfl⟩
        have hcomp := monitor_tick_completion st o.1 o.2 jn p hp
        have hphase := tick_step_phase jn st o
        by_cases hdterm : is_terminal (derive_phase_message o.1).1 = true
        · have hrest : completion_writes jn (tick_step jn st o) rest = 0 := by
            apply completion_writes_terminal jn rest (tick_step jn st o)
            · rw [hphase]; exact hdterm
            · rw [hphase]; exact hmono2
          rw [hdterm] at hcomp
          simp [completion_writes, completion_write_count, hp, hcomp, hrest]
        · have hrest : completion_writes jn (tick_step jn st o) rest ≤ 1 := by
            apply ih (tick_step jn st o)
            rw [hphase]
            exact hmono2
          have hc0 : p.completionTime.isSome = false := by
            rw [hcomp]
            simpa using hdterm
          simp [completion_writes, completion_write_count, hp, hc0]
          exact hrest

/-- Witness for c4_completion_written_at_most_once: a monotone run that
sees an active pod, then a succeeded completion twice, writes
completionTime at most once. -/
theorem c4_completion_witness :
    completion_writes "j" none
      [(⟨none, none, some 1, none⟩, "t1"),
       (⟨some 1, none, none, none⟩, "t2"),
       (⟨some 1, none, none, none⟩, "t3")] ≤ 1 :=
  c4_completion_written_at_most_once "j" none
    [(⟨none, none, some 1, none⟩, "t1"),
     (⟨some 1, none, none, none⟩, "t2"),
     (⟨some 1, none, none, none⟩, "t3")]
    (by decide)

/-- C4 counterexample: a run that observes one succeeded completion and
then, on a later tick, a positive failed counter with the succeeded
counter gone writes completionTime on both ticks, the second write
overwriting the first: completionTime is not written exactly once and is
overwritten by a later tick. -/
theorem c4_counterexample :
    completion_writes "j" none
      [(⟨some 1, none, none, none⟩, "t1"),
       (⟨none, some 1, none, none⟩, "t2")] = 2 ∧
    recorded_completion (tick_step "j" none
      (⟨some 1, none, none, none⟩, "t1")) = some "t1" ∧
    recorded_completion (tick_step "j"
      (tick_step "j" none (⟨some 1, none, none, none⟩, "t1"))
      (⟨none, some 1, none, none⟩, "t2")) = some "t2" := by
  decide
